import Mathlib

/-!
Verification of the hive-agent-client python library against its
natural-language specification.  The library's modules (chat, entry,
database, files) are shallowly embedded: each operation becomes a pure
Lean function from its arguments and a transport behaviour (a function
from the request to the server or network outcome) to the trace of
side-effect events it performs (streams opened and closed, HTTP requests
issued) together with its result (a value or a raised error).
-/

namespace HiveClient

/-- A JSON value, as produced by python's json module. -/
inductive Json where
  | null : Json
  | bool (b : Bool) : Json
  | num (n : Int) : Json
  | str (s : String) : Json
  | arr (xs : List Json) : Json
  | obj (fields : List (String × Json)) : Json

/-- Lower 4 bits of a number as a lowercase hex digit, as json.dumps emits. -/
def hexDigit (n : Nat) : Char :=
  if n < 10 then Char.ofNat (48 + n) else Char.ofNat (87 + n % 16)

/-- Four-digit lowercase hex rendering used by json.dumps unicode escapes. -/
def hex4 (n : Nat) : String :=
  String.mk [hexDigit (n / 4096 % 16), hexDigit (n / 256 % 16),
             hexDigit (n / 16 % 16), hexDigit (n % 16)]

/-- How json.dumps (ensure_ascii default) renders one character inside a
string literal. -/
def escChar (c : Char) : String :=
  if c = '"' then "\\\""
  else if c = '\\' then "\\\\"
  else if c = '\n' then "\\n"
  else if c = '\t' then "\\t"
  else if c = '\r' then "\\r"
  else if c = Char.ofNat 8 then "\\b"
  else if c = Char.ofNat 12 then "\\f"
  else if c.toNat < 32 ∨ c.toNat ≥ 127 then
    if c.toNat < 65536 then "\\u" ++ hex4 c.toNat
    else
      let v := c.toNat - 65536
      "\\u" ++ hex4 (55296 + v / 1024) ++ "\\u" ++ hex4 (56320 + v % 1024)
  else String.singleton c

/-- json.dumps escaping of a whole string body. -/
def jsonEscape (s : String) : String :=
  String.join (s.data.map escChar)

mutual

/-- python json.dumps with its default separators. -/
def jsonDumps : Json → String
  | .null => "null"
  | .bool true => "true"
  | .bool false => "false"
  | .num n => toString n
  | .str s => "\"" ++ jsonEscape s ++ "\""
  | .arr xs => "[" ++ dumpList xs ++ "]"
  | .obj fs => "\x7b" ++ dumpObj fs ++ "\x7d"

/-- Comma-separated rendering of a JSON array body. -/
def dumpList : List Json → String
  | [] => ""
  | [x] => jsonDumps x
  | x :: y :: xs => jsonDumps x ++ ", " ++ dumpList (y :: xs)

/-- Comma-separated rendering of a JSON object body. -/
def dumpObj : List (String × Json) → String
  | [] => ""
  | [(k, v)] => "\"" ++ jsonEscape k ++ "\": " ++ jsonDumps v
  | (k, v) :: f :: fs =>
      "\"" ++ jsonEscape k ++ "\": " ++ jsonDumps v ++ ", " ++ dumpObj (f :: fs)

end

/-- An HTTP response as the httpx client exposes it: numeric status, body
text, and the body parsed as JSON when well-formed (none models a body
response.json() would fail on). -/
structure Response where
  status : Nat
  text : String
  jsonBody : Option Json

/-- httpx response.is_success, the condition under which raise_for_status
does not raise: a 2xx status. -/
def Response.isSuccess (r : Response) : Bool :=
  decide (200 ≤ r.status ∧ r.status < 300)

/-- Outcome of attempting one HTTP request: a server response (of any
status), an httpx.RequestError (transport-level fault: DNS, connection
refused, timeout), or any other unexpected exception. -/
inductive TransportOutcome where
  | ok (r : Response)
  | requestError (desc : String)
  | otherError (desc : String)

/-- A python exception as raised out of a module function.  valueError and
exception are raised by the library's own code (exception carrying the
module's formatted message); requestError and rawOther model underlying
exceptions that a module lets propagate unwrapped. -/
inductive PyErr where
  | valueError (msg : String)
  | exception (msg : String)
  | requestError (desc : String)
  | rawOther (desc : String)
deriving DecidableEq, Repr

/-- Whether the error is one the library itself raised (wrapped), as
opposed to an underlying exception propagating unwrapped. -/
def PyErr.isWrapped : PyErr → Bool
  | .valueError _ => true
  | .exception _ => true
  | .requestError _ => false
  | .rawOther _ => false

/-- HTTP method of a request. -/
inductive Method where
  | get | post | put | delete
deriving DecidableEq, Repr

/-- Identity of a local stream: a handle this library opened from a
filesystem path, or a handle supplied already open by the caller. -/
inductive HSource where
  | fromPath (p : String)
  | fromCaller (id : Nat)
deriving DecidableEq, Repr

/-- A local stream together with whether it is an io.IOBase instance
(open() from a path always yields one; caller streams may or may not be). -/
structure Handle where
  src : HSource
  ioBase : Bool
deriving DecidableEq, Repr

/-- One file part of a multipart request: filename, backing stream, and
the content type attached to the part. -/
structure FilePart where
  name : String
  handle : Handle
  contentType : Option String
deriving DecidableEq, Repr

/-- The body httpx sends, as determined by the data/files/json/content
arguments: no body, a JSON body, a raw string body, a urlencoded form
(data given, files empty), or a multipart form (files non-empty). -/
inductive Body where
  | empty : Body
  | json (j : Json) : Body
  | raw (s : String) : Body
  | urlencoded (fields : List (String × String)) : Body
  | multipartForm (fields : List (String × String)) (parts : List FilePart) : Body
  | multipartFiles (parts : List FilePart) : Body

/-- True exactly when the body is a pure JSON body. -/
def Body.isJson : Body → Bool
  | .json _ => true
  | _ => false

/-- One HTTP request as issued through the httpx client. -/
structure Request where
  method : Method
  url : String
  body : Body
  params : List (String × String)

/-- Side-effect events a module function performs, in order: opening a
local file (succeeding or raising), issuing one HTTP request, closing a
local stream. -/
inductive Ev where
  | openOk (p : String)
  | openFail (p : String)
  | request (r : Request)
  | closeH (h : Handle)

/-- True on HTTP request events. -/
def Ev.isReq : Ev → Bool
  | .request _ => true
  | _ => false

/-- True on stream-close events. -/
def Ev.isClose : Ev → Bool
  | .closeH _ => true
  | _ => false

/-! ## Entry module: stream_entry

entry.stream_entry opens one WebSocket inside an async-with block, then
for each item of the input stream sends the item as a JSON frame, awaits
exactly one response frame and yields it, before pulling the next item.
The WebSocket server is embedded as a function from the sent frame to the
response frame; the events record the connection open, each pull from the
producer, each frame sent and received, each value yielded, and the
connection close performed by the async-with scope. -/

/-- WebSocket-level events of one stream_entry call over frame types α
(sent) and β (received). -/
inductive WsEv (α β : Type) where
  | connOpen : WsEv α β
  | pullNext : WsEv α β
  | send (d : α) : WsEv α β
  | recv (r : β) : WsEv α β
  | yielded (r : β) : WsEv α β
  | connClose : WsEv α β
deriving DecidableEq, Repr

/-- The async-for loop body of stream_entry: pull an item, send it,
receive one response, yield it; a final pull observes exhaustion. -/
def streamLoop {α β : Type} (server : α → β) :
    List α → List (WsEv α β) × List β
  | [] => ([.pullNext], [])
  | d :: rest =>
      let (evs, outs) := streamLoop server rest
      (.pullNext :: .send d :: .recv (server d) :: .yielded (server d) :: evs,
       server d :: outs)

/-- entry.stream_entry, fully consumed over a finite input sequence:
one connection opened, the lockstep loop, one connection close. -/
def stream_entry {α β : Type} (server : α → β) (data_stream : List α) :
    List (WsEv α β) × List β :=
  let (evs, outs) := streamLoop server data_stream
  (.connOpen :: evs ++ [.connClose], outs)

/-! ## Chat module

chat.send_chat_message validates the content, serializes the single-user
message payload with json.dumps into the chat_data form field, turns each
entry of the files argument into a multipart part (opening path entries
with open(path, "rb") before the try block), posts once to /chat, and in
a finally block closes every part stream that is an io.IOBase instance.
The mimetypes.guess_type table and the filesystem are embedded as an
environment. -/

/-- Whitespace as python str.strip removes it (ASCII range). -/
def pyIsSpace (c : Char) : Bool :=
  c = ' ' ∨ c = '\t' ∨ c = '\n' ∨ c = '\r' ∨ c.toNat = 11 ∨ c.toNat = 12

/-- python str.strip with no argument: drop leading and trailing
whitespace. -/
def pyStrip (s : String) : String :=
  ⟨((s.data.dropWhile pyIsSpace).reverse.dropWhile pyIsSpace).reverse⟩

/-- Environment of the chat module: mimetypes.guess_type restricted to
the path argument, and whether open(path, "rb") succeeds. -/
structure ChatEnv where
  guessType : String → Option String
  openOk : String → Bool

/-- os.path.basename on a posix path: everything after the last slash. -/
def basename (p : String) : String :=
  ⟨(p.data.reverse.takeWhile (fun c => ¬ c = '/')).reverse⟩

/-- The payload json.dumps receives: a messages list with exactly one
element, role user, carrying the content. -/
def chatMessagesJson (content : String) : Json :=
  .obj [("messages",
    .arr [.obj [("role", .str "user"), ("content", .str content)]])]

/-- The form fields send_chat_message always sends. -/
def chatForm (user_id session_id content : String) : List (String × String) :=
  [("user_id", user_id), ("session_id", session_id),
   ("chat_data", jsonDumps (chatMessagesJson content))]

/-- One element of send_chat_message's files argument: a fastapi
UploadFile (filename, already-open backing stream, declared content type)
or a filesystem path string. -/
inductive FileArg where
  | upload (filename : String) (file : Handle) (contentType : Option String)
  | path (p : String)

/-- The multipart part built from one files-argument element: an
UploadFile contributes its own filename, stream and content type; a path
contributes its basename, a freshly opened io.IOBase stream and a
content type guessed from the extension. -/
def partFor (env : ChatEnv) : FileArg → FilePart
  | .upload fn h ct => ⟨fn, h, ct⟩
  | .path p => ⟨basename p, ⟨.fromPath p, true⟩, env.guessType p⟩

/-- Whether every path entry of the files argument opens successfully. -/
def opensOk (env : ChatEnv) (files : List FileArg) : Bool :=
  files.all fun f =>
    match f with
    | .path p => env.openOk p
    | .upload _ _ _ => true

/-- The loop building files_to_send: left to right, opening each path
entry; the first failing open raises FileNotFoundError out of the
function (before the try block), leaving earlier opens unreleased. -/
def buildFilesToSend (env : ChatEnv) :
    List FileArg → List Ev × Except PyErr (List FilePart)
  | [] => ([], .ok [])
  | .upload fn h ct :: rest =>
      let (evs, r) := buildFilesToSend env rest
      (evs, r.map fun l => ⟨fn, h, ct⟩ :: l)
  | .path p :: rest =>
      if env.openOk p then
        let (evs, r) := buildFilesToSend env rest
        (.openOk p :: evs,
         r.map fun l => ⟨basename p, ⟨.fromPath p, true⟩, env.guessType p⟩ :: l)
      else ([.openFail p], .error (.rawOther ("FileNotFoundError: " ++ p)))

/-- The finally block: walk files_to_send and close every part stream
that is an io.IOBase instance (paths always are; caller streams only
sometimes). -/
def closeEvents : List FilePart → List Ev
  | [] => []
  | fp :: rest =>
      if fp.handle.ioBase then Ev.closeH fp.handle :: closeEvents rest
      else closeEvents rest

/-- The open events the files_to_send loop performs when every path
opens: one per path entry, in order. -/
def pathOpenEvs : List FileArg → List Ev
  | [] => []
  | .upload _ _ _ :: rest => pathOpenEvs rest
  | .path p :: rest => .openOk p :: pathOpenEvs rest

/-- chat.send_chat_message. -/
def send_chat_message (env : ChatEnv) (transport : Request → TransportOutcome)
    (base_url user_id session_id content : String) (files : List FileArg) :
    List Ev × Except PyErr String :=
  if pyStrip content = "" then
    ([], .error (.valueError "Content must not be empty"))
  else
    let url := base_url ++ "/chat"
    let form_data := chatForm user_id session_id content
    let (openEvs, built) := buildFilesToSend env files
    match built with
    | .error e => (openEvs, .error e)
    | .ok parts =>
        let body := if parts.isEmpty then Body.urlencoded form_data
                    else Body.multipartForm form_data parts
        let req : Request := ⟨.post, url, body, []⟩
        let result : Except PyErr String :=
          match transport req with
          | .ok resp =>
              if resp.isSuccess then .ok resp.text
              else .error (.exception
                ("HTTP error occurred when sending message to the chat API: "
                  ++ toString resp.status ++ " - " ++ resp.text))
          | .requestError d => .error (.exception
              ("Request error occurred when sending message to the chat API: " ++ d))
          | .otherError d => .error (.exception
              ("An unexpected error occurred when sending message to the chat API: " ++ d))
        (openEvs ++ [Ev.request req] ++ closeEvents parts, result)

/-- chat.get_chat_history. -/
def get_chat_history (transport : Request → TransportOutcome)
    (base_url user_id session_id : String) : Request × Except PyErr Json :=
  let req : Request := ⟨.get, base_url ++ "/chat_history", .empty,
    [("user_id", user_id), ("session_id", session_id)]⟩
  (req,
    match transport req with
    | .ok resp =>
        if resp.isSuccess then
          match resp.jsonBody with
          | some j => .ok j
          | none => .error (.exception
              ("An unexpected error occurred when fetching chat history from the chat API: "
                ++ "JSONDecodeError"))
        else .error (.exception
          ("HTTP error occurred when fetching chat history from the chat API: "
            ++ toString resp.status ++ " - " ++ resp.text))
    | .requestError d => .error (.exception
        ("Request error occurred when fetching chat history from the chat API: " ++ d))
    | .otherError d => .error (.exception
        ("An unexpected error occurred when fetching chat history from the chat API: " ++ d)))

/-- chat.get_all_chats. -/
def get_all_chats (transport : Request → TransportOutcome)
    (base_url user_id : String) : Request × Except PyErr Json :=
  let req : Request := ⟨.get, base_url ++ "/all_chats", .empty,
    [("user_id", user_id)]⟩
  (req,
    match transport req with
    | .ok resp =>
        if resp.isSuccess then
          match resp.jsonBody with
          | some j => .ok j
          | none => .error (.exception
              ("An unexpected error occurred when fetching all chats from the chat API: "
                ++ "JSONDecodeError"))
        else .error (.exception
          ("HTTP error occurred when fetching all chats from the chat API: "
            ++ toString resp.status ++ " - " ++ resp.text))
    | .requestError d => .error (.exception
        ("Request error occurred when fetching all chats from the chat API: " ++ d))
    | .otherError d => .error (.exception
        ("An unexpected error occurred when fetching all chats from the chat API: " ++ d)))

/-! ## Entry module, non-stream operations

entry.create_entry posts the data as a JSON body and wraps only
httpx.HTTPStatusError (raised by raise_for_status on a non-2xx status)
into an Exception carrying the namespace and the response body text;
every other exception, including httpx.RequestError, propagates
unwrapped. -/

/-- entry.create_entry. -/
def create_entry (transport : Request → TransportOutcome)
    (base_url nspace : String) (data : Json) : Request × Except PyErr Json :=
  let req : Request := ⟨.post, base_url ++ "/api/entry/" ++ nspace, .json data, []⟩
  (req,
    match transport req with
    | .ok resp =>
        if resp.isSuccess then
          match resp.jsonBody with
          | some j => .ok j
          | none => .error (.rawOther "JSONDecodeError")
        else .error (.exception
          ("Failed to create entry in " ++ nspace ++ ": " ++ resp.text))
    | .requestError d => .error (.requestError d)
    | .otherError d => .error (.rawOther d))

/-! ## Database module

database.create_table posts the table name and column definitions as a
JSON body; like the entry module it wraps only httpx.HTTPStatusError
(message carrying the table name and response body text) and lets every
other exception propagate unwrapped. -/

/-- database.create_table. -/
def create_table (transport : Request → TransportOutcome)
    (base_url table_name : String) (columns : Json) :
    Request × Except PyErr Json :=
  let req : Request := ⟨.post, base_url ++ "/database/create-table",
    .json (.obj [("table_name", .str table_name), ("columns", columns)]), []⟩
  (req,
    match transport req with
    | .ok resp =>
        if resp.isSuccess then
          match resp.jsonBody with
          | some j => .ok j
          | none => .error (.rawOther "JSONDecodeError")
        else .error (.exception
          ("Failed to create table " ++ table_name ++ ": " ++ resp.text))
    | .requestError d => .error (.requestError d)
    | .otherError d => .error (.rawOther d))

/-! ## Files module

files.upload_files opens every path with a list comprehension evaluated
before the try block (so a failing open raises with earlier handles still
open and no request made), posts one multipart request with one part per
path, wraps only httpx.HTTPStatusError, and closes every stream of the
comprehension in a finally block.  files.delete_file and
files.rename_file interpolate the file names into the URL verbatim. -/

/-- Environment of the files module: whether open(path, "rb") succeeds. -/
structure FilesEnv where
  openOk : String → Bool

/-- The list comprehension building the files argument of the upload
post: left to right, each path opened as a binary stream, with the fixed
per-part content type the source attaches. -/
def buildUploadParts (env : FilesEnv) :
    List String → List Ev × Except PyErr (List FilePart)
  | [] => ([], .ok [])
  | p :: rest =>
      if env.openOk p then
        let (evs, r) := buildUploadParts env rest
        (.openOk p :: evs,
         r.map fun l =>
           ⟨basename p, ⟨.fromPath p, true⟩, some "multipart/form-data"⟩ :: l)
      else ([.openFail p], .error (.rawOther ("FileNotFoundError: " ++ p)))

/-- files.upload_files. -/
def upload_files (env : FilesEnv) (transport : Request → TransportOutcome)
    (base_url : String) (file_paths : List String) :
    List Ev × Except PyErr Json :=
  let url := base_url ++ "/uploadfiles/"
  let (openEvs, built) := buildUploadParts env file_paths
  match built with
  | .error e => (openEvs, .error e)
  | .ok parts =>
      let req : Request := ⟨.post, url, .multipartFiles parts, []⟩
      let result : Except PyErr Json :=
        match transport req with
        | .ok resp =>
            if resp.isSuccess then
              match resp.jsonBody with
              | some j => .ok j
              | none => .error (.rawOther "JSONDecodeError")
            else .error (.exception ("Failed to upload files: " ++ resp.text))
        | .requestError d => .error (.requestError d)
        | .otherError d => .error (.rawOther d)
      (openEvs ++ [Ev.request req] ++ parts.map (fun fp => Ev.closeH fp.handle),
       result)

/-- files.delete_file. -/
def delete_file (transport : Request → TransportOutcome)
    (base_url filename : String) : Request × Except PyErr Json :=
  let req : Request := ⟨.delete, base_url ++ "/files/" ++ filename, .empty, []⟩
  (req,
    match transport req with
    | .ok resp =>
        if resp.isSuccess then
          match resp.jsonBody with
          | some j => .ok j
          | none => .error (.rawOther "JSONDecodeError")
        else .error (.exception
          ("Failed to delete file " ++ filename ++ ": " ++ resp.text))
    | .requestError d => .error (.requestError d)
    | .otherError d => .error (.rawOther d))

/-- files.rename_file. -/
def rename_file (transport : Request → TransportOutcome)
    (base_url old_filename new_filename : String) :
    Request × Except PyErr Json :=
  let req : Request := ⟨.put,
    base_url ++ "/files/" ++ old_filename ++ "/" ++ new_filename, .empty, []⟩
  (req,
    match transport req with
    | .ok resp =>
        if resp.isSuccess then
          match resp.jsonBody with
          | some j => .ok j
          | none => .error (.rawOther "JSONDecodeError")
        else .error (.exception
          ("Failed to rename file from " ++ old_filename ++ " to "
            ++ new_filename ++ ": " ++ resp.text))
    | .requestError d => .error (.requestError d)
    | .otherError d => .error (.rawOther d))

/-! ## Facade client

HiveAgentClient.__init__ strips one trailing slash from base_url when
present and appends a slash and the version; every method then passes
self.base_url to its module function. -/

/-- python s.endswith for a one-character suffix: the last character
equals it. -/
def pyEndsWith1 (s : String) (c : Char) : Bool :=
  s.data.getLast? = some c

/-- python s[:-1]: drop the final character. -/
def pyDropLast1 (s : String) : String :=
  ⟨s.data.dropLast⟩

/-- The base_url field HiveAgentClient.__init__ computes. -/
def clientBaseUrl (base_url version : String) : String :=
  (if pyEndsWith1 base_url '/' then pyDropLast1 base_url else base_url)
    ++ "/" ++ version

/-- The spec's wording of the normalization: strip a single trailing
slash if present, then append a slash followed by the version (spec
section 4.7; compared against the source's clientBaseUrl). -/
def specNormalizedBaseUrl (base_url version : String) : String :=
  let stripped := if pyEndsWith1 base_url '/' then pyDropLast1 base_url else base_url
  stripped ++ ("/" ++ version)

/-- True on connection-open events. -/
def WsEv.isOpen {α β : Type} : WsEv α β → Bool
  | .connOpen => true
  | _ => false

/-- True on connection-close events. -/
def WsEv.isClosed {α β : Type} : WsEv α β → Bool
  | .connClose => true
  | _ => false

/-- The canonical lockstep event sequence for one input item. -/
def lockstepBlock {α β : Type} (server : α → β) (d : α) : List (WsEv α β) :=
  [.pullNext, .send d, .recv (server d), .yielded (server d)]

theorem streamLoop_eq {α β : Type} (server : α → β) (l : List α) :
    streamLoop server l =
      (l.flatMap (lockstepBlock server) ++ [.pullNext], l.map server) := by
  induction l with
  | nil => simp [streamLoop]
  | cons d rest ih => simp [streamLoop, ih, lockstepBlock]

/-- C1: stream_entry over a finite input sequence of length N opens
exactly one WebSocket connection and closes it after the sequence is
exhausted, yields exactly N responses in input order, and operates in
lockstep: each item is pulled from the producer, sent as one frame, then
exactly one response frame is received and yielded before the next item
is pulled. -/
theorem stream_entry_lockstep {α β : Type} (server : α → β) (inputs : List α) :
    ((stream_entry server inputs).1.countP WsEv.isOpen = 1 ∧
     (stream_entry server inputs).1.countP WsEv.isClosed = 1) ∧
    ((stream_entry server inputs).2 = inputs.map server ∧
     (stream_entry server inputs).2.length = inputs.length) ∧
    (stream_entry server inputs).1 =
      WsEv.connOpen ::
        (inputs.flatMap (lockstepBlock server) ++ [WsEv.pullNext, WsEv.connClose]) := by
  have hloop := streamLoop_eq server inputs
  constructor
  · refine ⟨?_, ?_⟩
    · simp only [stream_entry, hloop]
      have : ∀ l : List α,
          (l.flatMap (lockstepBlock server)).countP (WsEv.isOpen (β := β)) = 0 := by
        intro l
        induction l with
        | nil => simp
        | cons d rest ih => simp [lockstepBlock, ih, WsEv.isOpen]
      simp [List.countP_cons, List.countP_append, this, WsEv.isOpen]
    · simp only [stream_entry, hloop]
      have : ∀ l : List α,
          (l.flatMap (lockstepBlock server)).countP (WsEv.isClosed (β := β)) = 0 := by
        intro l
        induction l with
        | nil => simp
        | cons d rest ih => simp [lockstepBlock, ih, WsEv.isClosed]
      simp [List.countP_cons, List.countP_append, this, WsEv.isClosed]
  · constructor
    · simp [stream_entry, hloop]
    · simp [stream_entry, hloop]

theorem buildFilesToSend_eq_of_opensOk (env : ChatEnv) (files : List FileArg)
    (hok : opensOk env files = true) :
    buildFilesToSend env files = (pathOpenEvs files, .ok (files.map (partFor env))) := by
  induction files with
  | nil => rfl
  | cons f rest ih =>
      cases f with
      | upload fn h ct =>
          have hrest : opensOk env rest = true := by
            simpa [opensOk] using hok
          simp [buildFilesToSend, ih hrest, pathOpenEvs, partFor, Except.map]
      | path p =>
          have hp : env.openOk p = true := by
            have h2 := hok
            simp [opensOk] at h2
            exact h2.1
          have hrest : opensOk env rest = true := by
            have h2 := hok
            simp [opensOk] at h2
            simpa [opensOk] using h2.2
          simp [buildFilesToSend, hp, ih hrest, pathOpenEvs, partFor, Except.map]

theorem pathOpenEvs_filter_isReq (files : List FileArg) :
    (pathOpenEvs files).filter Ev.isReq = [] := by
  induction files with
  | nil => rfl
  | cons f rest ih => cases f <;> simp [pathOpenEvs, Ev.isReq, ih]

theorem pathOpenEvs_filter_isClose (files : List FileArg) :
    (pathOpenEvs files).filter Ev.isClose = [] := by
  induction files with
  | nil => rfl
  | cons f rest ih => cases f <;> simp [pathOpenEvs, Ev.isClose, ih]

theorem closeEvents_filter_isReq (parts : List FilePart) :
    (closeEvents parts).filter Ev.isReq = [] := by
  induction parts with
  | nil => rfl
  | cons fp rest ih =>
      cases h : fp.handle.ioBase <;> simp [closeEvents, h, Ev.isReq, ih]

theorem closeEvents_filter_isClose (parts : List FilePart) :
    (closeEvents parts).filter Ev.isClose = closeEvents parts := by
  induction parts with
  | nil => rfl
  | cons fp rest ih =>
      cases h : fp.handle.ioBase <;> simp [closeEvents, h, Ev.isClose, ih]

theorem isEmpty_map_partFor (env : ChatEnv) (files : List FileArg) :
    (files.map (partFor env)).isEmpty = files.isEmpty := by
  cases files <;> rfl

/-- C2: when the trimmed content is empty, send_chat_message raises the
validation error before any network or filesystem activity: the event
trace is empty, whatever the transport and files argument. -/
theorem send_chat_message_empty_content (env : ChatEnv)
    (transport : Request → TransportOutcome)
    (base_url user_id session_id content : String) (files : List FileArg)
    (h : pyStrip content = "") :
    send_chat_message env transport base_url user_id session_id content files
      = ([], .error (.valueError "Content must not be empty")) := by
  simp [send_chat_message, h]

/-- Witness for C2 at the whitespace-only content of the spec's example. -/
theorem send_chat_message_empty_content_witness :
    pyStrip "   " = "" ∧
    send_chat_message ⟨fun _ => none, fun _ => true⟩
        (fun _ => .ok ⟨200, "ok", some .null⟩) "http://x/v1" "u" "s" "   " []
      = ([], .error (.valueError "Content must not be empty")) :=
  ⟨by decide,
   send_chat_message_empty_content ⟨fun _ => none, fun _ => true⟩
     (fun _ => .ok ⟨200, "ok", some .null⟩) "http://x/v1" "u" "s" "   " [] (by decide)⟩

/-- C3 counterexample: with an empty files list the one POST carries a
urlencoded form body (chat_data as a JSON string form field), not a JSON
body as the claim states. -/
theorem send_chat_message_body_not_json :
    (send_chat_message ⟨fun _ => none, fun _ => true⟩
        (fun _ => .ok ⟨200, "ok", some .null⟩) "http://x/v1" "u" "s" "hi" []).1
      = [Ev.request ⟨.post, "http://x/v1" ++ "/chat",
          .urlencoded (chatForm "u" "s" "hi"), []⟩] ∧
    Body.isJson (.urlencoded (chatForm "u" "s" "hi")) = false :=
  ⟨rfl, rfl⟩

/-- C3 (amended): for non-empty content, when every path entry opens,
send_chat_message issues exactly one POST to base_url/chat; its body is
always the form user_id/session_id/chat_data with chat_data the
json.dumps of a messages list holding exactly one role-user element —
urlencoded when files is empty, and a multipart form with one part per
file (filename, stream, guessed content type) when files is non-empty. -/
theorem send_chat_message_single_post (env : ChatEnv)
    (transport : Request → TransportOutcome)
    (base_url user_id session_id content : String) (files : List FileArg)
    (h : ¬ pyStrip content = "") (hok : opensOk env files = true) :
    (send_chat_message env transport base_url user_id session_id content files).1.filter
        Ev.isReq
      = [Ev.request ⟨.post, base_url ++ "/chat",
          if files.isEmpty then .urlencoded (chatForm user_id session_id content)
          else .multipartForm (chatForm user_id session_id content)
                 (files.map (partFor env)), []⟩] := by
  simp only [send_chat_message, h, buildFilesToSend_eq_of_opensOk env files hok,
        isEmpty_map_partFor]
  simp [List.filter_append, pathOpenEvs_filter_isReq, closeEvents_filter_isReq,
        Ev.isReq]

/-- Witness for C3 with one path file and with no files. -/
theorem send_chat_message_single_post_witness :
    (¬ pyStrip "hi" = "") ∧
    opensOk ⟨fun _ => some "text/plain", fun _ => true⟩ [.path "a.txt"] = true ∧
    (send_chat_message ⟨fun _ => some "text/plain", fun _ => true⟩
        (fun _ => .ok ⟨200, "ok", some .null⟩) "http://x/v1" "u" "s" "hi"
        [.path "a.txt"]).1.filter Ev.isReq
      = [Ev.request ⟨.post, "http://x/v1" ++ "/chat",
          .multipartForm (chatForm "u" "s" "hi")
            [⟨"a.txt", ⟨.fromPath "a.txt", true⟩, some "text/plain"⟩], []⟩] :=
  ⟨by decide, by decide, by
   exact send_chat_message_single_post ⟨fun _ => some "text/plain", fun _ => true⟩
     (fun _ => .ok ⟨200, "ok", some .null⟩) "http://x/v1" "u" "s" "hi"
     [.path "a.txt"] (by decide) (by decide)⟩

/-- C4 counterexample: create_entry on a 400 response whose body is Bad
request raises an error whose message carries the body text but not the
numeric status code. -/
theorem create_entry_error_lacks_status :
    (create_entry (fun _ => .ok ⟨400, "Bad request", none⟩) "http://x/v1" "items"
        .null).2
      = .error (.exception "Failed to create entry in items: Bad request") ∧
    ¬ (("400").data <:+: ("Failed to create entry in items: Bad request").data) :=
  ⟨rfl, by decide⟩

/-- C4 (amended): on a non-2xx response, the raised error message of the
entry and database modules contains the response body text verbatim (but
not necessarily the status code), while the chat module's message
contains both the numeric status code and the body text. -/
theorem error_message_contents (env : ChatEnv) (resp : Response)
    (b ns tn u s : String) (d cols : Json) (h : resp.isSuccess = false) :
    ((create_entry (fun _ => .ok resp) b ns d).2
        = .error (.exception ("Failed to create entry in " ++ ns ++ ": " ++ resp.text))
      ∧ resp.text.data <:+:
          ("Failed to create entry in " ++ ns ++ ": " ++ resp.text).data)
    ∧ ((create_table (fun _ => .ok resp) b tn cols).2
        = .error (.exception ("Failed to create table " ++ tn ++ ": " ++ resp.text))
      ∧ resp.text.data <:+:
          ("Failed to create table " ++ tn ++ ": " ++ resp.text).data)
    ∧ ((send_chat_message env (fun _ => .ok resp) b u s "hi" []).2
        = .error (.exception
            ("HTTP error occurred when sending message to the chat API: "
              ++ toString resp.status ++ " - " ++ resp.text))
      ∧ (toString resp.status).data <:+:
          ("HTTP error occurred when sending message to the chat API: "
            ++ toString resp.status ++ " - " ++ resp.text).data
      ∧ resp.text.data <:+:
          ("HTTP error occurred when sending message to the chat API: "
            ++ toString resp.status ++ " - " ++ resp.text).data) := by
  refine ⟨⟨?_, ?_⟩, ⟨?_, ?_⟩, ?_, ?_, ?_⟩
  · simp [create_entry, h]
  · exact ⟨("Failed to create entry in " ++ ns ++ ": ").data, [],
      by simp [String.data_append]⟩
  · simp [create_table, h]
  · exact ⟨("Failed to create table " ++ tn ++ ": ").data, [],
      by simp [String.data_append]⟩
  · have hne : ¬ pyStrip "hi" = "" := by decide
    simp [send_chat_message, buildFilesToSend, hne, h]
  · exact ⟨("HTTP error occurred when sending message to the chat API: ").data,
      (" - " ++ resp.text).data, by simp [String.data_append]⟩
  · exact ⟨("HTTP error occurred when sending message to the chat API: "
        ++ toString resp.status ++ " - ").data, [], by simp [String.data_append]⟩

/-- Witness for C4 at a 400 response with body Bad request. -/
theorem error_message_contents_witness :
    Response.isSuccess ⟨400, "Bad request", none⟩ = false ∧
    (create_entry (fun _ => .ok ⟨400, "Bad request", none⟩) "http://x/v1" "items"
        .null).2
      = .error (.exception ("Failed to create entry in " ++ "items" ++ ": "
          ++ "Bad request")) :=
  ⟨by decide,
   (error_message_contents ⟨fun _ => none, fun _ => true⟩ ⟨400, "Bad request", none⟩
      "http://x/v1" "items" "tbl" "u" "s" .null .null (by decide)).1.1⟩

/-- C5 counterexample: create_entry hit by a transport-level fault
propagates the underlying httpx.RequestError unwrapped, with no
module-level wrapping at all. -/
theorem create_entry_transport_fault_unwrapped :
    (create_entry (fun _ => .requestError "Connection refused") "http://x/v1"
        "items" .null).2
      = .error (.requestError "Connection refused") ∧
    PyErr.isWrapped (.requestError "Connection refused") = false :=
  ⟨rfl, rfl⟩

/-- C5 (amended): the chat module wraps transport-level and unexpected
faults into its own exceptions embedding the fault description, but the
entry and database non-stream operations catch only HTTPStatusError and
let transport-level and unexpected faults propagate unwrapped. -/
theorem transport_fault_taxonomy (env : ChatEnv)
    (b ns tn u s fault : String) (dataJ cols : Json) :
    (create_entry (fun _ => .requestError fault) b ns dataJ).2
        = .error (.requestError fault) ∧
    (create_entry (fun _ => .otherError fault) b ns dataJ).2
        = .error (.rawOther fault) ∧
    (create_table (fun _ => .requestError fault) b tn cols).2
        = .error (.requestError fault) ∧
    (create_table (fun _ => .otherError fault) b tn cols).2
        = .error (.rawOther fault) ∧
    (send_chat_message env (fun _ => .requestError fault) b u s "hi" []).2
        = .error (.exception
            ("Request error occurred when sending message to the chat API: "
              ++ fault)) ∧
    (send_chat_message env (fun _ => .otherError fault) b u s "hi" []).2
        = .error (.exception
            ("An unexpected error occurred when sending message to the chat API: "
              ++ fault)) :=
  ⟨rfl, rfl, rfl, rfl, rfl, rfl⟩

theorem buildUploadParts_eq_of_all (env : FilesEnv) (paths : List String)
    (h : paths.all env.openOk = true) :
    buildUploadParts env paths
      = (paths.map Ev.openOk,
         .ok (paths.map fun p =>
           ⟨basename p, ⟨.fromPath p, true⟩, some "multipart/form-data"⟩)) := by
  induction paths with
  | nil => rfl
  | cons p rest ih =>
      have h2 := h
      rw [List.all_cons, Bool.and_eq_true] at h2
      simp [buildUploadParts, h2.1, ih h2.2, Except.map]

/-- C6 counterexample: when the second of two paths fails to open,
upload_files raises with the first stream already opened, no request
made, and no close performed: the earlier handle is leaked. -/
theorem upload_files_leaks_on_open_failure :
    upload_files ⟨fun p => p == "a.txt"⟩ (fun _ => .ok ⟨200, "ok", some .null⟩)
        "http://x/v1" ["a.txt", "b.txt"]
      = ([Ev.openOk "a.txt", Ev.openFail "b.txt"],
         .error (.rawOther ("FileNotFoundError: " ++ "b.txt"))) ∧
    ([Ev.openOk "a.txt", Ev.openFail "b.txt"]).filter Ev.isClose = [] :=
  ⟨rfl, rfl⟩

/-- C6 (amended): when every path opens successfully, upload_files
issues exactly one multipart POST with one part per path and closes
every opened stream after the request whatever the transport outcome;
when a later path fails to open, no request is made and the
already-opened handles are not closed. -/
theorem upload_files_trace (env : FilesEnv)
    (transport : Request → TransportOutcome) (base_url : String)
    (paths : List String) (h : paths.all env.openOk = true) :
    (upload_files env transport base_url paths).1
      = paths.map Ev.openOk
        ++ [Ev.request ⟨.post, base_url ++ "/uploadfiles/",
              .multipartFiles (paths.map fun p =>
                ⟨basename p, ⟨.fromPath p, true⟩, some "multipart/form-data"⟩), []⟩]
        ++ paths.map fun p => Ev.closeH ⟨.fromPath p, true⟩ := by
  simp [upload_files, buildUploadParts_eq_of_all env paths h, List.map_map,
        Function.comp]

/-- Witness for C6 at the spec's two-file example, under a failing
transport, showing both handles closed regardless. -/
theorem upload_files_trace_witness :
    (["a.txt", "b.txt"].all (fun _ => true) = true) ∧
    (upload_files ⟨fun _ => true⟩ (fun _ => .requestError "timeout") "http://x/v1"
        ["a.txt", "b.txt"]).1
      = ["a.txt", "b.txt"].map Ev.openOk
        ++ [Ev.request ⟨.post, "http://x/v1" ++ "/uploadfiles/",
              .multipartFiles (["a.txt", "b.txt"].map fun p =>
                ⟨basename p, ⟨.fromPath p, true⟩, some "multipart/form-data"⟩), []⟩]
        ++ ["a.txt", "b.txt"].map fun p => Ev.closeH ⟨.fromPath p, true⟩ :=
  ⟨by decide,
   upload_files_trace ⟨fun _ => true⟩ (fun _ => .requestError "timeout")
     "http://x/v1" ["a.txt", "b.txt"] (by decide)⟩

/-- C7 counterexample: a caller-supplied UploadFile whose backing stream
is an io.IOBase instance is closed by send_chat_message's finally block;
and when a second path fails to open, the first internally opened handle
is not closed. -/
theorem send_chat_message_closes_caller_stream :
    ((send_chat_message ⟨fun _ => none, fun _ => true⟩
        (fun _ => .ok ⟨200, "ok", some .null⟩) "http://x/v1" "u" "s" "hi"
        [.upload "f.bin" ⟨.fromCaller 0, true⟩ (some "application/octet-stream")]).1.filter
          Ev.isClose
      = [Ev.closeH ⟨.fromCaller 0, true⟩]) ∧
    ((send_chat_message ⟨fun _ => none, fun p => p == "a.bin"⟩
        (fun _ => .ok ⟨200, "ok", some .null⟩) "http://x/v1" "u" "s" "hi"
        [.path "a.bin", .path "b.bin"]).1
      = [Ev.openOk "a.bin", Ev.openFail "b.bin"]) ∧
    ([Ev.openOk "a.bin", Ev.openFail "b.bin"]).filter Ev.isClose = [] :=
  ⟨rfl, rfl, rfl⟩

/-- C7 (amended): for non-empty content, when every path entry opens,
the streams closed after the call are exactly the parts whose backing
stream is an io.IOBase instance: every internally opened path handle
(always io.IOBase) and every caller-supplied UploadFile backed by an
io.IOBase stream; caller streams not backed by io.IOBase are left open. -/
theorem send_chat_message_closures (env : ChatEnv)
    (transport : Request → TransportOutcome)
    (base_url user_id session_id content : String) (files : List FileArg)
    (h : ¬ pyStrip content = "") (hok : opensOk env files = true) :
    (send_chat_message env transport base_url user_id session_id content
        files).1.filter Ev.isClose
      = closeEvents (files.map (partFor env)) := by
  simp [send_chat_message, h, buildFilesToSend_eq_of_opensOk env files hok,
        List.filter_append, pathOpenEvs_filter_isClose, closeEvents_filter_isClose,
        Ev.isClose]

/-- Witness for C7 mixing a path, a non-io.IOBase caller stream and an
io.IOBase caller stream: the path and io.IOBase streams are closed, the
other caller stream is not. -/
theorem send_chat_message_closures_witness :
    (¬ pyStrip "hi" = "") ∧
    opensOk ⟨fun _ => none, fun _ => true⟩
        [.path "a.bin", .upload "f" ⟨.fromCaller 0, false⟩ none,
         .upload "g" ⟨.fromCaller 1, true⟩ (some "x")] = true ∧
    (send_chat_message ⟨fun _ => none, fun _ => true⟩
        (fun _ => .ok ⟨200, "ok", some .null⟩) "http://x/v1" "u" "s" "hi"
        [.path "a.bin", .upload "f" ⟨.fromCaller 0, false⟩ none,
         .upload "g" ⟨.fromCaller 1, true⟩ (some "x")]).1.filter Ev.isClose
      = [Ev.closeH ⟨.fromPath "a.bin", true⟩, Ev.closeH ⟨.fromCaller 1, true⟩] :=
  ⟨by decide, by decide,
   send_chat_message_closures ⟨fun _ => none, fun _ => true⟩
     (fun _ => .ok ⟨200, "ok", some .null⟩) "http://x/v1" "u" "s" "hi"
     [.path "a.bin", .upload "f" ⟨.fromCaller 0, false⟩ none,
      .upload "g" ⟨.fromCaller 1, true⟩ (some "x")] (by decide) (by decide)⟩

/-- C8: on a 2xx response whose body parses as the JSON value j,
get_chat_history and get_all_chats return j itself, unchanged. -/
theorem chat_reads_return_json_verbatim (b u s : String) (resp : Response)
    (j : Json) (hs : resp.isSuccess = true) (hj : resp.jsonBody = some j) :
    (get_chat_history (fun _ => .ok resp) b u s).2 = .ok j ∧
    (get_all_chats (fun _ => .ok resp) b u).2 = .ok j := by
  simp [get_chat_history, get_all_chats, hs, hj]

/-- Witness for C8 at a concrete nested JSON payload. -/
theorem chat_reads_return_json_verbatim_witness :
    Response.isSuccess ⟨200, "x", some (.arr [.obj [("a", .num 1)]])⟩ = true ∧
    (get_chat_history
        (fun _ => .ok ⟨200, "x", some (.arr [.obj [("a", .num 1)]])⟩)
        "http://x/v1" "u" "s").2
      = .ok (.arr [.obj [("a", .num 1)]]) :=
  ⟨by decide,
   (chat_reads_return_json_verbatim "http://x/v1" "u" "s"
      ⟨200, "x", some (.arr [.obj [("a", .num 1)]])⟩
      (.arr [.obj [("a", .num 1)]]) (by decide) rfl).1⟩

/-- C9: HiveAgentClient construction normalizes the base URL exactly as
the spec words it (strip one trailing slash, append slash and version),
maps http://x/ with v1 to http://x/v1, and subsequent request paths are
formed from the normalized base. -/
theorem clientBaseUrl_normalizes (b v : String) :
    clientBaseUrl b v = specNormalizedBaseUrl b v ∧
    clientBaseUrl "http://x/" "v1" = "http://x/v1" ∧
    ∀ (t : Request → TransportOutcome) (fn : String),
      (delete_file t (clientBaseUrl b v) fn).1.url
        = clientBaseUrl b v ++ "/files/" ++ fn := by
  refine ⟨?_, by decide, fun t fn => rfl⟩
  simp [clientBaseUrl, specNormalizedBaseUrl, String.append_assoc]

/-- C10: delete_file and rename_file interpolate the given names into
the URL verbatim, with no escaping; hence a filename containing a slash
addresses the same URL as the corresponding two-segment rename path
rather than a single literal segment. -/
theorem file_urls_verbatim (t : Request → TransportOutcome)
    (b fn oldName newName : String) :
    (delete_file t b fn).1.url = b ++ "/files/" ++ fn ∧
    (rename_file t b oldName newName).1.url
      = b ++ "/files/" ++ oldName ++ "/" ++ newName ∧
    (delete_file t b "a/b").1.url = (rename_file t b "a" "b").1.url := by
  refine ⟨rfl, rfl, ?_⟩
  show b ++ "/files/" ++ "a/b" = b ++ "/files/" ++ "a" ++ "/" ++ "b"
  simp only [String.append_assoc]
  rfl

end HiveClient
